import Mathlib

/-!
Verification of the data-cleaning pipeline in `src/cleaning.py` of the
EDA-Project repository (pandas-based cleaning of Spanish R&D statistics).

The pandas data model is shallowly embedded as follows.

* A cell value (`Val`) is either a string, a rational number (standing for a
  Python float; the pipeline only ever produces finite decimal values, which
  rationals represent exactly), or `null` (standing for NaN / missing).
* A row is an ordered association list from column labels to cell values, and
  a table (`DataFrame`) is a list of rows.  Reading an absent column yields
  `null`; this also models the column alignment that `pd.concat` performs
  (missing columns are filled with NaN).
* `pd.to_numeric(..., errors="coerce")` is modelled by a hand-written decimal
  parser `toNumericQ` over rationals (sign, digits, optional fraction,
  optional exponent, outer whitespace ignored), returning `none` on failure.
  The special spellings accepted by Python floats ("inf", "nan") are not
  modelled; no claim depends on them.
* `Series.str.replace` with the single-character patterns used by the source
  ("." removed, "," mapped to ".") is per-character filtering / mapping; the
  `.str` accessor turns non-string elements into NaN, which the cell-level
  functions reproduce.
-/

inductive Val where
  | str (s : String)
  | num (q : ℚ)
  | null
deriving DecidableEq

def Val.isStr : Val → Bool
  | Val.str _ => true
  | _ => false

def Val.isNum : Val → Bool
  | Val.num _ => true
  | _ => false

def Val.getStr : Val → String
  | Val.str s => s
  | _ => ""

/-! ### Decimal parsing, modelling `pd.to_numeric(..., errors="coerce")` -/

def digitsVal (ds : List Nat) : Nat :=
  ds.foldl (fun a d => a * 10 + d) 0

def takeDigits : List Char → List Nat × List Char
  | [] => ([], [])
  | c :: cs =>
    if c.isDigit then
      match takeDigits cs with
      | (ds, rest) => ((c.toNat - 48) :: ds, rest)
    else ([], c :: cs)

def splitSign : List Char → Bool × List Char
  | '+' :: cs => (false, cs)
  | '-' :: cs => (true, cs)
  | cs => (false, cs)

def trimList (cs : List Char) : List Char :=
  ((cs.dropWhile Char.isWhitespace).reverse.dropWhile Char.isWhitespace).reverse

def parseExp (cs : List Char) : Option Int :=
  match splitSign cs with
  | (neg, cs1) =>
    match takeDigits cs1 with
    | ([], _) => none
    | (ds, rest) =>
      if rest = [] then
        some (if neg then -(digitsVal ds : Int) else (digitsVal ds : Int))
      else none

def parseFrac : List Char → List Nat × List Char
  | '.' :: cs => takeDigits cs
  | cs => ([], cs)

def applyExp (q : ℚ) : Option Int → Option ℚ
  | some e => some (q * (10 : ℚ) ^ e)
  | none => none

def parseTail (signed : ℚ) : List Char → Option ℚ
  | [] => some signed
  | 'e' :: cs => applyExp signed (parseExp cs)
  | 'E' :: cs => applyExp signed (parseExp cs)
  | _ => none

/-- The numeric parser behind `pd.to_numeric(..., errors="coerce")`:
`some q` when the string denotes the decimal number `q`, `none` otherwise. -/
def toNumericQ (s : String) : Option ℚ :=
  match splitSign (trimList s.data) with
  | (neg, cs1) =>
    match takeDigits cs1 with
    | (ip, cs2) =>
      match parseFrac cs2 with
      | (fp, cs3) =>
        if ip = [] ∧ fp = [] then none
        else
          parseTail
            (if neg then -((digitsVal (ip ++ fp) : ℚ) / (10 : ℚ) ^ fp.length)
             else (digitsVal (ip ++ fp) : ℚ) / (10 : ℚ) ^ fp.length) cs3

/-! ### Rows and tables -/

abbrev Row := List (String × Val)

abbrev Table := List Row

/-- Read column `c` of row `r`; absent columns read as `null` (NaN). -/
def getCell (r : Row) (c : String) : Val :=
  match r.find? (fun p => p.1 == c) with
  | some p => p.2
  | none => Val.null

/-- Column assignment `df[c] = v` at row level: an existing column keeps its
position, a new column is appended at the end (pandas semantics). -/
def setCell (r : Row) (c : String) (v : Val) : Row :=
  if r.any (fun p => p.1 == c) then
    r.map (fun p => if p.1 == c then (c, v) else p)
  else r ++ [(c, v)]

theorem find?_map_setCell (r : Row) (c : String) (v : Val)
    (h : r.any (fun p => p.1 == c) = true) :
    (r.map (fun p => if p.1 == c then (c, v) else p)).find? (fun p => p.1 == c)
      = some (c, v) := by
  induction r with
  | nil => simp at h
  | cons p r ih =>
    by_cases hp : (p.1 == c) = true
    · simp only [List.map_cons, hp, if_true]
      exact List.find?_cons_of_pos _ (by simp)
    · have hp' : (p.1 == c) = false := by simpa using hp
      simp only [List.any_cons, hp', Bool.false_or] at h
      simp only [List.map_cons, hp', Bool.false_eq_true, if_false]
      rw [List.find?_cons_of_neg _ (by simp [hp'])]
      exact ih h

theorem find?_append_setCell (r : Row) (c : String) (v : Val)
    (h : r.any (fun p => p.1 == c) = false) :
    (r ++ [(c, v)]).find? (fun p => p.1 == c) = some (c, v) := by
  induction r with
  | nil => simp
  | cons p r ih =>
    simp only [List.any_cons, Bool.or_eq_false_iff] at h
    rw [List.cons_append, List.find?_cons_of_neg _ (by simp [h.1])]
    exact ih h.2

theorem getCell_setCell (r : Row) (c : String) (v : Val) :
    getCell (setCell r c v) c = v := by
  unfold getCell setCell
  by_cases h : r.any (fun p => p.1 == c) = true
  · rw [if_pos h, find?_map_setCell r c v h]
  · rw [if_neg h, find?_append_setCell r c v (Bool.eq_false_iff.mpr h)]

/-! ### `limpiar_columna_total` (src/cleaning.py lines 12-54) -/

/-- Remove every occurrence of character `c` (Python
`s.replace(single_char, "")`). -/
def remChar (c : Char) (s : String) : String :=
  String.mk (s.data.filter (fun d => !(d == c)))

/-- Replace every occurrence of character `a` by `b` (Python
`s.replace(a, b)` for single-character `a`, `b`). -/
def swapChar (a b : Char) (s : String) : String :=
  String.mk (s.data.map (fun d => if d == a then b else d))

/-- Step 1, `df["Total"].replace("..", np.nan)`: cells equal to the string
".." become NaN, all other cells are unchanged. -/
def replaceSentinel : Val → Val
  | Val.str s => if s = ".." then Val.null else Val.str s
  | v => v

/-- Step 2, `df["Total"].str.replace(".", "", regex=False)`: thousands
separators removed; the `.str` accessor maps non-string cells to NaN. -/
def strReplaceDot : Val → Val
  | Val.str s => Val.str (remChar '.' s)
  | _ => Val.null

/-- Step 3, `df["Total"].str.replace(",", ".", regex=False)`: decimal comma
becomes a point; non-string cells become NaN. -/
def strReplaceComma : Val → Val
  | Val.str s => Val.str (swapChar ',' '.' s)
  | _ => Val.null

/-- Step 4, `pd.to_numeric(df["Total"], errors="coerce")` at cell level. -/
def toNumericVal : Val → Val
  | Val.str s =>
    match toNumericQ s with
    | some q => Val.num q
    | none => Val.null
  | Val.num q => Val.num q
  | Val.null => Val.null

/-- Whole-column assignment `df[c] = f(df[c])`. -/
def mapCol (c : String) (f : Val → Val) (df : Table) : Table :=
  df.map (fun r => setCell r c (f (getCell r c)))

/-- Function `limpiar_columna_total`: the four column rewrites applied in source
order to (a copy of) the input table. -/
def limpiar_columna_total (df : Table) : Table :=
  mapCol "Total" toNumericVal
    (mapCol "Total" strReplaceComma
      (mapCol "Total" strReplaceDot
        (mapCol "Total" replaceSentinel df)))

def optValOf : Option ℚ → Val
  | some q => Val.num q
  | none => Val.null

/-- Reference normalization, written from the words of the spec (section 4.1
and section 8): the sentinel ".." is null; otherwise remove every ".",
substitute "," by ".", and parse; parse failure is null. -/
def normalizeSpec (s : String) : Option ℚ :=
  if s = ".." then none
  else toNumericQ (swapChar ',' '.' (remChar '.' s))

theorem getCell_limpiar (r : Row) :
    getCell (setCell (setCell (setCell (setCell r "Total"
        (replaceSentinel (getCell r "Total"))) "Total"
        (strReplaceDot (getCell (setCell r "Total"
          (replaceSentinel (getCell r "Total"))) "Total"))) "Total"
        (strReplaceComma (getCell (setCell (setCell r "Total"
          (replaceSentinel (getCell r "Total"))) "Total"
          (strReplaceDot (getCell (setCell r "Total"
            (replaceSentinel (getCell r "Total"))) "Total"))) "Total"))) "Total"
        (toNumericVal (getCell (setCell (setCell (setCell r "Total"
          (replaceSentinel (getCell r "Total"))) "Total"
          (strReplaceDot (getCell (setCell r "Total"
            (replaceSentinel (getCell r "Total"))) "Total"))) "Total"
          (strReplaceComma (getCell (setCell (setCell r "Total"
            (replaceSentinel (getCell r "Total"))) "Total"
            (strReplaceDot (getCell (setCell r "Total"
              (replaceSentinel (getCell r "Total"))) "Total"))) "Total"))) "Total")))
      "Total"
      = toNumericVal (strReplaceComma (strReplaceDot (replaceSentinel
          (getCell r "Total")))) := by
  simp [getCell_setCell]

/-- C1: on a table whose Total column holds strings, the cleaned Total
column is exactly the reference normalization of the spec, cell by cell;
the function is total, so no string input raises. -/
theorem limpiar_total_matches_normalize (df : Table)
    (h : ∀ r ∈ df, (getCell r "Total").isStr = true) :
    (limpiar_columna_total df).map (fun r => getCell r "Total")
      = df.map (fun r => optValOf (normalizeSpec ((getCell r "Total").getStr))) := by
  unfold limpiar_columna_total mapCol
  simp only [List.map_map]
  apply List.map_congr_left
  intro r hr
  have hkey := getCell_limpiar r
  simp only [Function.comp]
  rw [hkey]
  have hs := h r hr
  cases hv : getCell r "Total" with
  | str s =>
    by_cases hdd : s = ".."
    · subst hdd
      simp [replaceSentinel, strReplaceDot, strReplaceComma, toNumericVal,
        normalizeSpec, optValOf, Val.getStr]
    · simp only [replaceSentinel, if_neg hdd, strReplaceDot, strReplaceComma,
        toNumericVal, normalizeSpec, Val.getStr, if_neg hdd]
      cases toNumericQ (swapChar ',' '.' (remChar '.' s)) <;> simp [optValOf]
  | num q => rw [hv] at hs; simp [Val.isStr] at hs
  | null => rw [hv] at hs; simp [Val.isStr] at hs

def dfC1 : Table :=
  [[("Total", Val.str "1.234,5")], [("Total", Val.str "..")],
   [("Total", Val.str "abc")]]

/-- Witness for C1 at a concrete three-row table (a European-formatted
number, the missing sentinel, and an unparseable string). -/
theorem limpiar_total_matches_normalize_witness :
    (∀ r ∈ dfC1, (getCell r "Total").isStr = true) ∧
    (limpiar_columna_total dfC1).map (fun r => getCell r "Total")
      = dfC1.map (fun r => optValOf (normalizeSpec ((getCell r "Total").getStr))) :=
  ⟨by decide, limpiar_total_matches_normalize dfC1 (by decide)⟩

/-! ### `separar_valores_porcentajes` (src/cleaning.py lines 57-81) -/

/-- The mask `df["Sectores/unidad"].str.contains("%", na=False)` at cell
level: a string cell tests for the percent character; NaN (and any
non-string cell, which the `.str` accessor turns into NaN) counts as not
containing it because of `na=False`. -/
def containsPct : Val → Bool
  | Val.str s => s.data.contains '%'
  | _ => false

/-- Function `separar_valores_porcentajes`: keep (a copy of) the rows whose
label does not contain the percent marker. -/
def separar_valores_porcentajes (df : Table) : Table :=
  df.filter (fun r => !containsPct (getCell r "Sectores/unidad"))

/-! ### `pivotear_dataset` (src/cleaning.py lines 84-114) -/

/-- The (index, columns) key of a row, as used by
`df.pivot(index="Años", columns="Sectores/unidad", values="Total")`. -/
def pivotKeys (df : Table) : List (Val × Val) :=
  df.map (fun r => (getCell r "Años", getCell r "Sectores/unidad"))

/-- Label of the wide column created for a category value.  pandas labels
columns with the raw values; since the model's column labels are strings,
non-string category values (never produced by this pipeline) are rendered
textually. -/
def colName : Val → String
  | Val.str s => s
  | Val.num q => toString q
  | Val.null => "nan"

/-- The cell the wide table holds at (year, category): the Total of the (unique)
long row with that key, NaN when no such row exists. -/
def lookupCell (df : Table) (y s : Val) : Val :=
  match df.find? (fun r =>
      getCell r "Años" == y && getCell r "Sectores/unidad" == s) with
  | some r => getCell r "Total"
  | none => Val.null

/-- Function `pivotear_dataset`: `df.pivot` raises
`ValueError: Index contains duplicate entries, cannot reshape` when some
(year, category) key occurs twice; otherwise it builds one row per distinct
year with one column per distinct category, followed by `reset_index()`
which turns the year index back into a leading column. -/
def pivotear_dataset (df : Table) : Except String Table :=
  if (pivotKeys df).Nodup then
    Except.ok (((df.map (fun r => getCell r "Años")).dedup).map (fun y =>
      ("Años", y) ::
        ((df.map (fun r => getCell r "Sectores/unidad")).dedup).map
          (fun s => (colName s, lookupCell df y s))))
  else Except.error "Index contains duplicate entries, cannot reshape"

/-- Flattening a wide table back to long form, as worded by the spec's
round-trip property: one (year, category, value) triple per non-null cell;
the leading year column provides the year. -/
def meltBack (w : Table) : List (Val × String × Val) :=
  w.flatMap (fun r =>
    r.tail.filterMap (fun p =>
      if p.2 == Val.null then none
      else some ((r.headD ("", Val.null)).2, p.1, p.2)))

theorem lookupCell_self (df : Table) (hkeys : (pivotKeys df).Nodup)
    (r : Row) (hr : r ∈ df) :
    lookupCell df (getCell r "Años") (getCell r "Sectores/unidad")
      = getCell r "Total" := by
  unfold lookupCell
  have hex : (df.find? (fun x => getCell x "Años" == getCell r "Años" &&
      getCell x "Sectores/unidad" == getCell r "Sectores/unidad")).isSome := by
    rw [List.find?_isSome]
    exact ⟨r, hr, by simp⟩
  obtain ⟨r', hr'⟩ := Option.isSome_iff_exists.mp hex
  rw [hr']
  have hmem := List.mem_of_find?_eq_some hr'
  have hpred := List.find?_some hr'
  simp only [Bool.and_eq_true, beq_iff_eq] at hpred
  unfold pivotKeys at hkeys
  have heq : r' = r :=
    List.inj_on_of_nodup_map hkeys hmem hr (by simp [hpred.1, hpred.2])
  rw [heq]

theorem lookupCell_found (df : Table) (y s v : Val)
    (h : lookupCell df y s = v) (hv : v ≠ Val.null) :
    ∃ r ∈ df, getCell r "Años" = y ∧ getCell r "Sectores/unidad" = s ∧
      getCell r "Total" = v := by
  unfold lookupCell at h
  cases hf : df.find? (fun r =>
      getCell r "Años" == y && getCell r "Sectores/unidad" == s) with
  | none => rw [hf] at h; exact absurd h.symm hv
  | some r =>
    rw [hf] at h
    have hmem := List.mem_of_find?_eq_some hf
    have hpred := List.find?_some hf
    simp only [Bool.and_eq_true, beq_iff_eq] at hpred
    exact ⟨r, hmem, hpred.1, hpred.2, h⟩

/-- C3 (amended: all Total values non-null): pivoting a long table with
unique (year, category) keys and then flattening the wide result one row
per non-null cell reproduces exactly the original set of
(year, category, value) triples. -/
theorem pivot_melt_roundtrip (df : Table)
    (hkeys : (pivotKeys df).Nodup)
    (hsec : ∀ r ∈ df, (getCell r "Sectores/unidad").isStr = true)
    (hval : ∀ r ∈ df, getCell r "Total" ≠ Val.null) :
    ∃ w, pivotear_dataset df = Except.ok w ∧
      ∀ y : Val, ∀ c : String, ∀ v : Val,
        ((y, c, v) ∈ meltBack w ↔
          ∃ r ∈ df, getCell r "Años" = y ∧
            getCell r "Sectores/unidad" = Val.str c ∧
            getCell r "Total" = v) := by
  refine ⟨_, by rw [pivotear_dataset, if_pos hkeys], ?_⟩
  intro y c v
  rw [meltBack, List.mem_flatMap]
  constructor
  · rintro ⟨rw_, hrw, hcell⟩
    rw [List.mem_map] at hrw
    obtain ⟨y', hy', rfl⟩ := hrw
    simp only [List.tail_cons, List.headD_cons, List.mem_filterMap,
      List.mem_map] at hcell
    obtain ⟨p, ⟨s, hs, rfl⟩, hpv⟩ := hcell
    by_cases hnull : (lookupCell df y' s == Val.null) = true
    · rw [if_pos hnull] at hpv
      exact absurd hpv (by simp)
    · rw [if_neg hnull] at hpv
      rw [Option.some.injEq, Prod.mk.injEq, Prod.mk.injEq] at hpv
      obtain ⟨hyy, hcc, hvv⟩ := hpv
      dsimp only at hcc hvv
      subst hyy
      have hvne : v ≠ Val.null := by
        intro hc
        apply hnull
        rw [hvv, hc]
        simp
      obtain ⟨r, hr, h1, h2, h3⟩ := lookupCell_found df y' s v hvv hvne
      have hstr := hsec r hr
      rw [h2] at hstr
      cases s with
      | str s0 =>
        have hs0 : s0 = c := hcc
        refine ⟨r, hr, h1, ?_, h3⟩
        rw [h2, hs0]
      | num q => simp [Val.isStr] at hstr
      | null => simp [Val.isStr] at hstr
  · rintro ⟨r, hr, hy, hsr, hv⟩
    refine ⟨("Años", y) ::
      ((df.map (fun r => getCell r "Sectores/unidad")).dedup).map
        (fun s => (colName s, lookupCell df y s)), ?_, ?_⟩
    · rw [List.mem_map]
      exact ⟨y, by rw [List.mem_dedup, List.mem_map]; exact ⟨r, hr, hy⟩, rfl⟩
    · simp only [List.tail_cons, List.headD_cons, List.mem_filterMap,
        List.mem_map]
      refine ⟨(colName (Val.str c), lookupCell df y (Val.str c)),
        ⟨Val.str c, by rw [List.mem_dedup, List.mem_map]; exact ⟨r, hr, hsr⟩, rfl⟩, ?_⟩
      have hlk : lookupCell df y (Val.str c) = getCell r "Total" := by
        rw [← hy, ← hsr]
        exact lookupCell_self df hkeys r hr
      have hvne : v ≠ Val.null := hv ▸ hval r hr
      rw [hlk, hv, if_neg (by simpa using hvne)]
      simp [colName]

def dfC3w : Table :=
  [[("Años", Val.num 2020), ("Sectores/unidad", Val.str "A"), ("Total", Val.num 5)],
   [("Años", Val.num 2021), ("Sectores/unidad", Val.str "A"), ("Total", Val.num 6)],
   [("Años", Val.num 2020), ("Sectores/unidad", Val.str "B"), ("Total", Val.num 7)]]

/-- Witness for C3 (amended) at a concrete three-row long table. -/
theorem pivot_melt_roundtrip_witness :
    (pivotKeys dfC3w).Nodup ∧
    (∀ r ∈ dfC3w, (getCell r "Sectores/unidad").isStr = true) ∧
    (∀ r ∈ dfC3w, getCell r "Total" ≠ Val.null) ∧
    (∃ w, pivotear_dataset dfC3w = Except.ok w ∧
      ∀ y : Val, ∀ c : String, ∀ v : Val,
        ((y, c, v) ∈ meltBack w ↔
          ∃ r ∈ dfC3w, getCell r "Años" = y ∧
            getCell r "Sectores/unidad" = Val.str c ∧
            getCell r "Total" = v)) :=
  ⟨by decide, by decide, by decide,
    pivot_melt_roundtrip dfC3w (by decide) (by decide) (by decide)⟩

def dfC3 : Table :=
  [[("Años", Val.num 2020), ("Sectores/unidad", Val.str "A"), ("Total", Val.null)]]

/-- Counterexample to C3 as stated: a one-row long table with unique keys
whose Total is null.  The pivot succeeds, but flattening the wide table one
row per non-null cell yields no triple at all, so the original set of
(year, category, value) triples is not reproduced. -/
theorem pivot_melt_roundtrip_cex :
    (pivotKeys dfC3).Nodup ∧
    Except.map meltBack (pivotear_dataset dfC3)
      = Except.ok ([] : List (Val × String × Val)) ∧
    (∃ r ∈ dfC3, getCell r "Años" = Val.num 2020 ∧
      getCell r "Sectores/unidad" = Val.str "A" ∧
      getCell r "Total" = Val.null) := by
  refine ⟨by decide, by rfl, ?_⟩
  exact ⟨[("Años", Val.num 2020), ("Sectores/unidad", Val.str "A"),
    ("Total", Val.null)], by decide, by decide, by decide, by decide⟩

/-- C7: any long table with a repeated (year, category) key makes
`pivotear_dataset` fail with the hard pandas reshape error; no wide table
(hence no averaged or overwritten cell) is ever produced for such input. -/
theorem pivot_duplicate_is_error (df : Table)
    (h : ¬ (pivotKeys df).Nodup) :
    pivotear_dataset df
      = Except.error "Index contains duplicate entries, cannot reshape" := by
  rw [pivotear_dataset, if_neg h]

def dfC7 : Table :=
  [[("Años", Val.num 2020), ("Sectores/unidad", Val.str "A"), ("Total", Val.num 1)],
   [("Años", Val.num 2020), ("Sectores/unidad", Val.str "A"), ("Total", Val.num 2)]]

/-- Witness for C7 at a concrete table with a duplicated key. -/
theorem pivot_duplicate_is_error_witness :
    ¬ (pivotKeys dfC7).Nodup ∧
    pivotear_dataset dfC7
      = Except.error "Index contains duplicate entries, cannot reshape" :=
  ⟨by decide, pivot_duplicate_is_error dfC7 (by decide)⟩

/-- C5: `separar_valores_porcentajes` returns exactly the rows whose
Sectores/unidad label does not contain the percent marker, each retained
row taken unmodified from the input (the output is a sublist of the
input). -/
theorem separar_exactly_nonpct (df : Table) :
    (separar_valores_porcentajes df).Sublist df ∧
    ∀ r : Row, r ∈ separar_valores_porcentajes df ↔
      r ∈ df ∧ containsPct (getCell r "Sectores/unidad") = false := by
  refine ⟨List.filter_sublist df, ?_⟩
  intro r
  rw [separar_valores_porcentajes, List.mem_filter, Bool.not_eq_eq_eq_not,
    Bool.not_true]

/-- C9: a row whose Sectores/unidad label is null is retained by
`separar_valores_porcentajes` (the na=False mask treats null as not
containing the percent marker). -/
theorem separar_keeps_null_label (df : Table) (r : Row)
    (hr : r ∈ df) (hnull : getCell r "Sectores/unidad" = Val.null) :
    r ∈ separar_valores_porcentajes df := by
  rw [separar_valores_porcentajes, List.mem_filter, hnull]
  exact ⟨hr, by simp [containsPct]⟩

def dfC9 : Table :=
  [[("Sectores/unidad", Val.null), ("Total", Val.str "1")],
   [("Sectores/unidad", Val.str "Empresas: % del PIB"), ("Total", Val.str "2")]]

def rC9 : Row := [("Sectores/unidad", Val.null), ("Total", Val.str "1")]

/-- Witness for C9 at a concrete table with a null label row. -/
theorem separar_keeps_null_label_witness :
    rC9 ∈ dfC9 ∧ getCell rC9 "Sectores/unidad" = Val.null ∧
    rC9 ∈ separar_valores_porcentajes dfC9 :=
  ⟨by decide, by decide, separar_keeps_null_label dfC9 rC9 (by decide) (by decide)⟩

/-! ### Column renaming (src/cleaning.py lines 117-170) -/

/-- Renaming `df.rename(columns=m)`: labels found in the map are replaced, all other
labels pass through unchanged. -/
def renameCols (m : List (String × String)) (df : Table) : Table :=
  df.map (fun row => row.map (fun p =>
    match m.find? (fun q => q.1 == p.1) with
    | some q => (q.2, p.2)
    | none => p))

def renombrado_gastos : List (String × String) :=
  [("Total (miles de euros)", "Total"),
   ("Administración Pública: Total (miles de euros)", "Admin_Publica"),
   ("Enseñanza Superior: Total (miles de euros)", "Enseñanza_Superior"),
   ("Empresas: Total (miles de euros)", "Empresas"),
   ("IPSFL: Total (miles de euros)", "IPSFL")]

def renombrado_fondos : List (String × String) :=
  [("Total (miles de euros)", "Total"),
   ("Administración Pública: Total (miles de euros)", "Admin_Publica"),
   ("Empresas: Total (miles de euros)", "Empresas"),
   ("IPSFL: Total (miles de euros)", "IPSFL"),
   ("Resto del Mundo: Total (miles de euros)", "Resto_Mundo")]

def renombrar_columnas_gastos (df : Table) : Table :=
  renameCols renombrado_gastos df

def renombrar_columnas_fondos (df : Table) : Table :=
  renameCols renombrado_fondos df

/-! ### `consolidar_datasets` (src/cleaning.py lines 173-206) -/

/-- The element-wise comparison `df2["Años"] != anio` (negated here): Python
equality between a cell and the integer overlap year.  A numeric cell
compares by value; a string cell is never equal to an int, and NaN
compares unequal to everything. -/
def pyEqInt (v : Val) (n : Int) : Bool :=
  match v with
  | Val.num q => q == (n : ℚ)
  | _ => false

/-- Source line `df2_sin_duplicado = df2[df2["Años"] != año_duplicado].copy()`. -/
def df2_sin_duplicado (df2 : Table) (anio : Int) : Table :=
  df2.filter (fun r => !pyEqInt (getCell r "Años") anio)

/-- Row form of `df["Años"] = pd.to_numeric(df["Años"], errors="coerce")`. -/
def coerceAnios (r : Row) : Row :=
  setCell r "Años" (toNumericVal (getCell r "Años"))

/-- Ordering used by `sort_values("Años")` after the coercion: numbers
ascending, NaN (and the then-impossible string case) placed last. -/
def valLeB (a b : Val) : Bool :=
  match a, b with
  | Val.num x, Val.num y => x ≤ y
  | Val.num _, _ => true
  | _, Val.num _ => false
  | _, _ => true

/-- Sorting `sort_values("Años").reset_index(drop=True)`: rows reordered ascending
by year; positions in the resulting list are the renumbered index. -/
def sortByAnios (df : Table) : Table :=
  df.mergeSort (fun a b => valLeB (getCell a "Años") (getCell b "Años"))

/-- Function `consolidar_datasets`: drop the overlap year from the second table,
concatenate, coerce the year column to numeric, sort by year and renumber
(source lines 190-201). -/
def consolidar_datasets (df1 df2 : Table) (anio : Int) : Table :=
  sortByAnios ((df1 ++ df2_sin_duplicado df2 anio).map coerceAnios)

theorem valLeB_trans (a b c : Val) (hab : valLeB a b = true)
    (hbc : valLeB b c = true) : valLeB a c = true := by
  cases a <;> cases b <;> cases c <;> simp_all [valLeB] <;> linarith

theorem valLeB_total (a b : Val) : (valLeB a b || valLeB b a) = true := by
  cases a <;> cases b <;> simp [valLeB] <;> exact le_total _ _

/-- C2: for tables whose late-period year column has no repeated value (the
wide-table invariant of the data model), consolidation has
rows(early) + rows(late) - 1 rows when the overlap year occurs in the late
table, and rows(early) + rows(late) rows otherwise; in both cases it is a
plain union and no error is possible. -/
theorem consolidar_row_count (df1 df2 : Table) (anio : Int)
    (hnd : (df2.map (fun r => getCell r "Años")).Nodup) :
    (consolidar_datasets df1 df2 anio).length =
      if df2.any (fun r => pyEqInt (getCell r "Años") anio) then
        df1.length + df2.length - 1
      else df1.length + df2.length := by
  have hperm := List.mergeSort_perm
    ((df1 ++ df2_sin_duplicado df2 anio).map coerceAnios)
    (fun a b => valLeB (getCell a "Años") (getCell b "Años"))
  rw [consolidar_datasets, sortByAnios, hperm.length_eq, List.length_map,
    List.length_append, df2_sin_duplicado]
  by_cases h : df2.any (fun r => pyEqInt (getCell r "Años") anio) = true
  · rw [if_pos h]
    have hcnt : df2.countP (fun r => pyEqInt (getCell r "Años") anio) = 1 := by
      have hcc : df2.countP (fun r => pyEqInt (getCell r "Años") anio)
          = (df2.map (fun r => getCell r "Años")).count (Val.num (anio : ℚ)) := by
        rw [List.count, List.countP_map]
        apply List.countP_congr
        intro r _
        cases hv : getCell r "Años" <;>
          simp [pyEqInt, Function.comp, hv]
      rw [hcc]
      have hle := List.nodup_iff_count_le_one.mp hnd (Val.num (anio : ℚ))
      have hge : 0 < (df2.map (fun r => getCell r "Años")).count
          (Val.num (anio : ℚ)) := by
        rw [List.count_pos_iff, List.mem_map]
        rw [List.any_eq_true] at h
        obtain ⟨r, hr, hpr⟩ := h
        refine ⟨r, hr, ?_⟩
        cases hv : getCell r "Años" with
        | num q =>
          rw [hv] at hpr
          simp only [pyEqInt, beq_iff_eq] at hpr
          rw [hpr]
        | str s => rw [hv] at hpr; simp [pyEqInt] at hpr
        | null => rw [hv] at hpr; simp [pyEqInt] at hpr
      omega
    have hsplit := List.length_eq_countP_add_countP
      (fun r => pyEqInt (getCell r "Años") anio) df2
    have hfilt : (df2.filter (fun r => !pyEqInt (getCell r "Años") anio)).length
        = List.countP
            (fun a => decide (¬ pyEqInt (getCell a "Años") anio = true)) df2 := by
      rw [← List.countP_eq_length_filter]
      apply List.countP_congr
      intro x _
      simp
    omega
  · rw [if_neg h]
    have hall : df2.filter (fun r => !pyEqInt (getCell r "Años") anio) = df2 := by
      rw [List.filter_eq_self]
      intro r hr
      have h' := List.any_eq_false.mp (Bool.eq_false_iff.mpr h) r hr
      simpa using h'
    rw [hall]

def dfC2a : Table :=
  [[("Años", Val.num 2019), ("Empresas", Val.num 1)],
   [("Años", Val.num 2020), ("Empresas", Val.num 2)],
   [("Años", Val.num 2021), ("Empresas", Val.num 3)]]

def dfC2b : Table :=
  [[("Años", Val.num 2021), ("Empresas", Val.num 4)],
   [("Años", Val.num 2022), ("Empresas", Val.num 5)]]

/-- Witness for C2 at concrete early (2019-2021) and late (2021-2022)
tables with overlap year 2021. -/
theorem consolidar_row_count_witness :
    (dfC2b.map (fun r => getCell r "Años")).Nodup ∧
    (consolidar_datasets dfC2a dfC2b 2021).length =
      if dfC2b.any (fun r => pyEqInt (getCell r "Años") 2021) then
        dfC2a.length + dfC2b.length - 1
      else dfC2a.length + dfC2b.length :=
  ⟨by decide, consolidar_row_count dfC2a dfC2b 2021 (by decide)⟩

theorem pyEqInt_eq_true (v : Val) (n : Int) :
    pyEqInt v n = true ↔ v = Val.num (n : ℚ) := by
  cases v <;> simp [pyEqInt]

theorem getCell_coerceAnios (r : Row) :
    getCell (coerceAnios r) "Años" = toNumericVal (getCell r "Años") :=
  getCell_setCell r "Años" (toNumericVal (getCell r "Años"))

/-- C6: for early and late tables with numeric year cells that share the
overlap year, the consolidated table is a permutation of the coerced union
with the late copy of the overlap year dropped, its rows are sorted
ascending by the year column (renumbering is positional in the list
model), the overlap year is present, and every row carrying the overlap
year comes from the early table. -/
theorem consolidar_sorted_overlap_from_early (df1 df2 : Table) (anio : Int)
    (h1 : ∀ r ∈ df1, (getCell r "Años").isNum = true)
    (h2 : ∀ r ∈ df2, (getCell r "Años").isNum = true)
    (hs1 : df1.any (fun r => pyEqInt (getCell r "Años") anio) = true)
    (hs2 : df2.any (fun r => pyEqInt (getCell r "Años") anio) = true) :
    (consolidar_datasets df1 df2 anio).Perm
        ((df1 ++ df2_sin_duplicado df2 anio).map coerceAnios) ∧
    List.Pairwise
        (fun a b => valLeB (getCell a "Años") (getCell b "Años") = true)
        (consolidar_datasets df1 df2 anio) ∧
    (∀ r ∈ consolidar_datasets df1 df2 anio,
        getCell r "Años" = Val.num (anio : ℚ) →
        ∃ r0 ∈ df1, r = coerceAnios r0) ∧
    (∃ r ∈ consolidar_datasets df1 df2 anio,
        getCell r "Años" = Val.num (anio : ℚ)) := by
  have hperm : (consolidar_datasets df1 df2 anio).Perm
      ((df1 ++ df2_sin_duplicado df2 anio).map coerceAnios) :=
    List.mergeSort_perm _ _
  refine ⟨hperm, ?_, ?_, ?_⟩
  · exact List.sorted_mergeSort
      (fun a b c => valLeB_trans (getCell a "Años") (getCell b "Años")
        (getCell c "Años"))
      (fun a b => valLeB_total (getCell a "Años") (getCell b "Años")) _
  · intro r hr hy
    have hr' := hperm.mem_iff.mp hr
    rw [List.mem_map] at hr'
    obtain ⟨r0, hr0, rfl⟩ := hr'
    rw [List.mem_append] at hr0
    cases hr0 with
    | inl hin => exact ⟨r0, hin, rfl⟩
    | inr hin =>
      rw [df2_sin_duplicado, List.mem_filter] at hin
      obtain ⟨hmem, hkeep⟩ := hin
      have hnum := h2 r0 hmem
      cases hv : getCell r0 "Años" with
      | num q =>
        rw [getCell_coerceAnios, hv] at hy
        have hq : q = (anio : ℚ) := by
          simpa [toNumericVal] using hy
        rw [hv, hq, Bool.not_eq_true'] at hkeep
        simp [pyEqInt] at hkeep
      | str s => rw [hv] at hnum; simp [Val.isNum] at hnum
      | null => rw [hv] at hnum; simp [Val.isNum] at hnum
  · rw [List.any_eq_true] at hs1
    obtain ⟨r1, hr1, hp1⟩ := hs1
    rw [pyEqInt_eq_true] at hp1
    refine ⟨coerceAnios r1, ?_, ?_⟩
    · exact hperm.mem_iff.mpr
        (List.mem_map_of_mem _ (List.mem_append_left _ hr1))
    · rw [getCell_coerceAnios, hp1]
      rfl

def dfC6a : Table :=
  [[("Años", Val.num 2000), ("Empresas", Val.num 10)],
   [("Años", Val.num 2021), ("Empresas", Val.num 11)]]

def dfC6b : Table :=
  [[("Años", Val.num 2021), ("Empresas", Val.num 20)],
   [("Años", Val.num 2024), ("Empresas", Val.num 21)]]

/-- Witness for C6 at concrete early (2000, 2021) and late (2021, 2024)
tables with overlap year 2021. -/
theorem consolidar_sorted_overlap_from_early_witness :
    (∀ r ∈ dfC6a, (getCell r "Años").isNum = true) ∧
    (∀ r ∈ dfC6b, (getCell r "Años").isNum = true) ∧
    dfC6a.any (fun r => pyEqInt (getCell r "Años") 2021) = true ∧
    dfC6b.any (fun r => pyEqInt (getCell r "Años") 2021) = true ∧
    ((consolidar_datasets dfC6a dfC6b 2021).Perm
        ((dfC6a ++ df2_sin_duplicado dfC6b 2021).map coerceAnios) ∧
      List.Pairwise
        (fun a b => valLeB (getCell a "Años") (getCell b "Años") = true)
        (consolidar_datasets dfC6a dfC6b 2021) ∧
      (∀ r ∈ consolidar_datasets dfC6a dfC6b 2021,
          getCell r "Años" = Val.num ((2021 : Int) : ℚ) →
          ∃ r0 ∈ dfC6a, r = coerceAnios r0) ∧
      (∃ r ∈ consolidar_datasets dfC6a dfC6b 2021,
          getCell r "Años" = Val.num ((2021 : Int) : ℚ))) :=
  ⟨by decide, by decide, by decide, by decide,
    consolidar_sorted_overlap_from_early dfC6a dfC6b 2021
      (by decide) (by decide) (by decide) (by decide)⟩

/-- C10: the overlap-year removal compares the raw, uncoerced year cells
with Python equality, so every late row whose raw year equals the overlap
year is dropped, a late row carrying the string rendering of the overlap
year is kept, year coercion happens only on the concatenated table (every
consolidated row is a raw input row with exactly its year cell passed
through `toNumericVal`), and an unparseable year coerces to null instead
of raising. -/
theorem consolidar_raw_equality (df1 df2 : Table) (anio : Int) :
    (∀ r ∈ df2, pyEqInt (getCell r "Años") anio = true →
        r ∉ df2_sin_duplicado df2 anio) ∧
    (∀ r ∈ df2, getCell r "Años" = Val.str (toString anio) →
        r ∈ df2_sin_duplicado df2 anio) ∧
    (∀ r ∈ consolidar_datasets df1 df2 anio,
        ∃ r0, (r0 ∈ df1 ∨ (r0 ∈ df2 ∧ pyEqInt (getCell r0 "Años") anio = false))
          ∧ r = coerceAnios r0
          ∧ getCell r "Años" = toNumericVal (getCell r0 "Años")) ∧
    (∀ s : String, toNumericQ s = none → toNumericVal (Val.str s) = Val.null) := by
  refine ⟨?_, ?_, ?_, ?_⟩
  · intro r _ hpy hmem
    rw [df2_sin_duplicado, List.mem_filter, hpy] at hmem
    simp at hmem
  · intro r hr hstr
    rw [df2_sin_duplicado, List.mem_filter, hstr]
    exact ⟨hr, by simp [pyEqInt]⟩
  · intro r hr
    have hperm : (consolidar_datasets df1 df2 anio).Perm
        ((df1 ++ df2_sin_duplicado df2 anio).map coerceAnios) :=
      List.mergeSort_perm _ _
    have hr' := hperm.mem_iff.mp hr
    rw [List.mem_map] at hr'
    obtain ⟨r0, hr0, rfl⟩ := hr'
    rw [List.mem_append] at hr0
    cases hr0 with
    | inl hin => exact ⟨r0, Or.inl hin, rfl, getCell_coerceAnios r0⟩
    | inr hin =>
      rw [df2_sin_duplicado, List.mem_filter, Bool.not_eq_true'] at hin
      exact ⟨r0, Or.inr hin, rfl, getCell_coerceAnios r0⟩
  · intro s hs
    simp [toNumericVal, hs]

def dfC10a : Table :=
  [[("Años", Val.num 2020), ("Empresas", Val.num 1)]]

def dfC10b : Table :=
  [[("Años", Val.num 2021), ("Empresas", Val.num 2)],
   [("Años", Val.str "2021"), ("Empresas", Val.num 3)],
   [("Años", Val.str "sin dato"), ("Empresas", Val.num 4)]]

/-- Witness for C10 at a concrete late table holding the overlap year as a
number, as the string "2021", and as an unparseable string. -/
theorem consolidar_raw_equality_witness :
    (∀ r ∈ dfC10b, pyEqInt (getCell r "Años") 2021 = true →
        r ∉ df2_sin_duplicado dfC10b 2021) ∧
    (∀ r ∈ dfC10b, getCell r "Años" = Val.str (toString (2021 : Int)) →
        r ∈ df2_sin_duplicado dfC10b 2021) ∧
    (∀ r ∈ consolidar_datasets dfC10a dfC10b 2021,
        ∃ r0, (r0 ∈ dfC10a ∨
            (r0 ∈ dfC10b ∧ pyEqInt (getCell r0 "Años") 2021 = false))
          ∧ r = coerceAnios r0
          ∧ getCell r "Años" = toNumericVal (getCell r0 "Años")) ∧
    (∀ s : String, toNumericQ s = none → toNumericVal (Val.str s) = Val.null) :=
  consolidar_raw_equality dfC10a dfC10b 2021

/-! ### `filtrar_periodo` (src/cleaning.py lines 209-231) -/

/-- The comparison `df["Años"] >= n` at cell level: numbers compare by
value and NaN compares false.  (Comparing a string year with an int raises
a TypeError in pandas; the theorems below therefore restrict to tables
without string year cells, which is where this model is used.) -/
def geIntB (v : Val) (n : Int) : Bool :=
  match v with
  | Val.num q => (n : ℚ) ≤ q
  | _ => false

/-- The comparison `df["Años"] <= n` at cell level; see `geIntB`. -/
def leIntB (v : Val) (n : Int) : Bool :=
  match v with
  | Val.num q => q ≤ (n : ℚ)
  | _ => false

/-- Function `filtrar_periodo`: keep (a copy of) the rows whose year passes both
inclusive bounds. -/
def filtrar_periodo (df : Table) (anio_inicio anio_fin : Int) : Table :=
  df.filter (fun r => geIntB (getCell r "Años") anio_inicio &&
    leIntB (getCell r "Años") anio_fin)

/-- C4: on a table without string year cells, `filtrar_periodo` keeps
exactly the rows whose (numeric) year lies in the inclusive range, and an
inverted range yields the empty table rather than an error. -/
theorem filtrar_periodo_range (df : Table) (a b : Int)
    (hnostr : ∀ r ∈ df, (getCell r "Años").isStr = false) :
    (∀ r : Row, r ∈ filtrar_periodo df a b ↔
      r ∈ df ∧ ∃ q : ℚ, getCell r "Años" = Val.num q ∧
        (a : ℚ) ≤ q ∧ q ≤ (b : ℚ)) ∧
    (b < a → filtrar_periodo df a b = []) := by
  constructor
  · intro r
    rw [filtrar_periodo, List.mem_filter]
    constructor
    · rintro ⟨hr, hp⟩
      rw [Bool.and_eq_true] at hp
      refine ⟨hr, ?_⟩
      cases hv : getCell r "Años" with
      | num q =>
        rw [hv] at hp
        exact ⟨q, rfl, by simpa [geIntB] using hp.1,
          by simpa [leIntB] using hp.2⟩
      | str s => rw [hv] at hp; simp [geIntB] at hp
      | null => rw [hv] at hp; simp [geIntB] at hp
    · rintro ⟨hr, q, hq, hga, hlb⟩
      refine ⟨hr, ?_⟩
      rw [hq]
      simp [geIntB, leIntB, hga, hlb]
  · intro hba
    rw [filtrar_periodo, List.filter_eq_nil_iff]
    intro r _
    cases hv : getCell r "Años" with
    | num q =>
      simp only [hv, geIntB, leIntB, Bool.and_eq_true, decide_eq_true_eq, not_and]
      intro h1 h2
      have hcast : (b : ℚ) < (a : ℚ) := by exact_mod_cast hba
      linarith
    | str s => simp [hv, geIntB]
    | null => simp [hv, geIntB]

def dfC4 : Table :=
  [[("Años", Val.num 2007), ("Empresas", Val.num 1)],
   [("Años", Val.null), ("Empresas", Val.num 2)]]

/-- Witness for C4 at a concrete table with an inverted range (2010, 2005). -/
theorem filtrar_periodo_range_witness :
    (∀ r ∈ dfC4, (getCell r "Años").isStr = false) ∧
    (∀ r : Row, r ∈ filtrar_periodo dfC4 2010 2005 ↔
      r ∈ dfC4 ∧ ∃ q : ℚ, getCell r "Años" = Val.num q ∧
        ((2010 : Int) : ℚ) ≤ q ∧ q ≤ ((2005 : Int) : ℚ)) ∧
    ((2005 : Int) < 2010 → filtrar_periodo dfC4 2010 2005 = []) :=
  ⟨by decide, (filtrar_periodo_range dfC4 2010 2005 (by decide)).1,
    (filtrar_periodo_range dfC4 2010 2005 (by decide)).2⟩

/-! ### Heap model for the frame behaviour of the stages

Python dataframes are heap objects referenced by local variables.  To state
that a stage returns a new table and never mutates its argument, each stage
is rendered as a heap program: the heap is a list of tables, a reference is
an index, allocation appends at the end, and the column assignments of the
source are in-place writes to the allocated copy, exactly as written in
`src/cleaning.py` (`df_limpio = df.copy()` followed by four writes to
`df_limpio`; `df_consolidado = pd.concat(...)` followed by one write to
`df_consolidado`; the remaining stages allocate their result directly). -/

abbrev Heap := List Table

def readH (h : Heap) (r : Nat) : Table :=
  h.getD r []

def writeH (h : Heap) (r : Nat) (t : Table) : Heap :=
  h.set r t

theorem readH_last (h : Heap) (t : Table) : readH (h ++ [t]) h.length = t := by
  induction h with
  | nil => rfl
  | cons x h _ => simp [readH, List.getD]

theorem writeH_last (h : Heap) (t t' : Table) :
    writeH (h ++ [t]) h.length t' = h ++ [t'] := by
  induction h with
  | nil => rfl
  | cons x h _ => simp [writeH]

theorem readH_append_lt (h : Heap) (l : List Table) (i : Nat)
    (hi : i < h.length) : readH (h ++ l) i = readH h i :=
  List.getD_append h l [] i hi

/-- Stage `limpiar_columna_total` as a heap program: copy the argument, then the
four in-place column writes of the source, returning the copy. -/
def limpiarProg (r : Nat) (h : Heap) : Nat × Heap :=
  let rl := h.length
  let h1 := h ++ [readH h r]
  let h2 := writeH h1 rl (mapCol "Total" replaceSentinel (readH h1 rl))
  let h3 := writeH h2 rl (mapCol "Total" strReplaceDot (readH h2 rl))
  let h4 := writeH h3 rl (mapCol "Total" strReplaceComma (readH h3 rl))
  let h5 := writeH h4 rl (mapCol "Total" toNumericVal (readH h4 rl))
  (rl, h5)

/-- Stage `separar_valores_porcentajes` as a heap program: the filtered copy is a
fresh allocation. -/
def separarProg (r : Nat) (h : Heap) : Nat × Heap :=
  (h.length, h ++ [separar_valores_porcentajes (readH h r)])

/-- Stage `pivotear_dataset` as a heap program: on success the pivoted table is a
fresh allocation, on the duplicate-key error nothing is allocated. -/
def pivotProg (r : Nat) (h : Heap) : Except String Nat × Heap :=
  match pivotear_dataset (readH h r) with
  | Except.ok t => (Except.ok h.length, h ++ [t])
  | Except.error e => (Except.error e, h)

/-- Stage `renombrar_columnas_gastos` as a heap program (`df.rename` allocates). -/
def renombrarGastosProg (r : Nat) (h : Heap) : Nat × Heap :=
  (h.length, h ++ [renombrar_columnas_gastos (readH h r)])

/-- Stage `renombrar_columnas_fondos` as a heap program (`df.rename` allocates). -/
def renombrarFondosProg (r : Nat) (h : Heap) : Nat × Heap :=
  (h.length, h ++ [renombrar_columnas_fondos (readH h r)])

/-- Stage `consolidar_datasets` as a heap program: allocate the filtered copy of
the late table, allocate the concatenation, write the coerced year column
into the concatenation in place, and allocate the sorted result. -/
def consolidarProg (r1 r2 : Nat) (anio : Int) (h : Heap) : Nat × Heap :=
  let rs := h.length
  let h1 := h ++ [df2_sin_duplicado (readH h r2) anio]
  let rc := h1.length
  let h2 := h1 ++ [readH h1 r1 ++ readH h1 rs]
  let h3 := writeH h2 rc ((readH h2 rc).map coerceAnios)
  (h3.length, h3 ++ [sortByAnios (readH h3 rc)])

/-- Stage `filtrar_periodo` as a heap program: the filtered copy is a fresh
allocation. -/
def filtrarProg (r : Nat) (a b : Int) (h : Heap) : Nat × Heap :=
  (h.length, h ++ [filtrar_periodo (readH h r) a b])

theorem limpiarProg_eq (r : Nat) (h : Heap) :
    limpiarProg r h = (h.length, h ++ [limpiar_columna_total (readH h r)]) := by
  simp only [limpiarProg, readH_last, writeH_last, limpiar_columna_total]

theorem consolidarProg_eq (r1 r2 : Nat) (anio : Int) (h : Heap)
    (hr1 : r1 < h.length) :
    consolidarProg r1 r2 anio h =
      (h.length + 2,
       h ++ [df2_sin_duplicado (readH h r2) anio,
             (readH h r1 ++ df2_sin_duplicado (readH h r2) anio).map coerceAnios,
             consolidar_datasets (readH h r1) (readH h r2) anio]) := by
  have hA : readH (h ++ [df2_sin_duplicado (readH h r2) anio]) r1
      = readH h r1 := readH_append_lt h _ r1 hr1
  simp only [consolidarProg, readH_last, hA]
  rw [writeH_last, Prod.mk.injEq]
  refine ⟨by simp, ?_⟩
  rw [readH_last (h ++ [df2_sin_duplicado (readH h r2) anio])]
  simp [consolidar_datasets, List.append_assoc]

theorem readH_append2_last (h : Heap) (A B C : Table) :
    readH (h ++ [A, B, C]) (h.length + 2) = C := by
  have hsplit : h ++ [A, B, C] = (h ++ [A, B]) ++ [C] := by simp
  rw [hsplit, show h.length + 2 = (h ++ [A, B]).length by simp]
  exact readH_last _ _

/-- C8: every stage, run as the heap program written in the source, leaves
every pre-existing table (in particular its input tables) unchanged, and
its result is a freshly allocated reference holding exactly the value of
the corresponding pure table function. -/
theorem stages_allocate_and_preserve (h : Heap) (r r1 r2 : Nat)
    (anio a b : Int) (i : Nat) (hr1 : r1 < h.length) (hi : i < h.length) :
    (readH (limpiarProg r h).2 i = readH h i ∧
      h.length ≤ (limpiarProg r h).1 ∧
      readH (limpiarProg r h).2 (limpiarProg r h).1
        = limpiar_columna_total (readH h r)) ∧
    (readH (separarProg r h).2 i = readH h i ∧
      h.length ≤ (separarProg r h).1 ∧
      readH (separarProg r h).2 (separarProg r h).1
        = separar_valores_porcentajes (readH h r)) ∧
    (readH (pivotProg r h).2 i = readH h i ∧
      ∀ t, pivotear_dataset (readH h r) = Except.ok t →
        (pivotProg r h).1 = Except.ok h.length ∧
        readH (pivotProg r h).2 h.length = t) ∧
    (readH (renombrarGastosProg r h).2 i = readH h i ∧
      h.length ≤ (renombrarGastosProg r h).1 ∧
      readH (renombrarGastosProg r h).2 (renombrarGastosProg r h).1
        = renombrar_columnas_gastos (readH h r)) ∧
    (readH (renombrarFondosProg r h).2 i = readH h i ∧
      h.length ≤ (renombrarFondosProg r h).1 ∧
      readH (renombrarFondosProg r h).2 (renombrarFondosProg r h).1
        = renombrar_columnas_fondos (readH h r)) ∧
    (readH (consolidarProg r1 r2 anio h).2 i = readH h i ∧
      h.length ≤ (consolidarProg r1 r2 anio h).1 ∧
      readH (consolidarProg r1 r2 anio h).2 (consolidarProg r1 r2 anio h).1
        = consolidar_datasets (readH h r1) (readH h r2) anio) ∧
    (readH (filtrarProg r a b h).2 i = readH h i ∧
      h.length ≤ (filtrarProg r a b h).1 ∧
      readH (filtrarProg r a b h).2 (filtrarProg r a b h).1
        = filtrar_periodo (readH h r) a b) := by
  refine ⟨⟨?_, ?_, ?_⟩, ⟨?_, ?_, ?_⟩, ⟨?_, ?_⟩, ⟨?_, ?_, ?_⟩,
    ⟨?_, ?_, ?_⟩, ⟨?_, ?_, ?_⟩, ⟨?_, ?_, ?_⟩⟩
  · rw [limpiarProg_eq]
    exact readH_append_lt h _ i hi
  · rw [limpiarProg_eq]
  · rw [limpiarProg_eq]
    exact readH_last h _
  · exact readH_append_lt h _ i hi
  · exact Nat.le_refl _
  · exact readH_last h _
  · cases hp : pivotear_dataset (readH h r) with
    | ok t =>
      simp only [pivotProg, hp]
      exact readH_append_lt h _ i hi
    | error e => simp only [pivotProg, hp]
  · intro t ht
    simp only [pivotProg, ht]
    exact ⟨trivial, readH_last h t⟩
  · exact readH_append_lt h _ i hi
  · exact Nat.le_refl _
  · exact readH_last h _
  · exact readH_append_lt h _ i hi
  · exact Nat.le_refl _
  · exact readH_last h _
  · rw [consolidarProg_eq r1 r2 anio h hr1]
    exact readH_append_lt h _ i hi
  · rw [consolidarProg_eq r1 r2 anio h hr1]
    exact Nat.le_add_right _ _
  · rw [consolidarProg_eq r1 r2 anio h hr1]
    exact readH_append2_last h _ _ _
  · exact readH_append_lt h _ i hi
  · exact Nat.le_refl _
  · exact readH_last h _

def heapC8 : Heap :=
  [[[("Años", Val.num 2020), ("Sectores/unidad", Val.str "A"),
     ("Total", Val.str "1,5")]]]

/-- Witness for C8 at a concrete one-table heap: the pre-existing table is
untouched by the copying stage and by the consolidating stage. -/
theorem stages_allocate_and_preserve_witness :
    0 < heapC8.length ∧
    readH (limpiarProg 0 heapC8).2 0 = readH heapC8 0 ∧
    readH (consolidarProg 0 0 2021 heapC8).2 0 = readH heapC8 0 :=
  ⟨by decide,
    ((stages_allocate_and_preserve heapC8 0 0 0 2021 2000 2024 0
      (by decide) (by decide)).1).1,
    (((stages_allocate_and_preserve heapC8 0 0 0 2021 2000 2024 0
      (by decide) (by decide)).2).2.2.2.2.1).1⟩

def dfC5 : Table :=
  [[("Sectores/unidad", Val.str "Empresas: Total (miles de euros)"),
    ("Total", Val.num 1)],
   [("Sectores/unidad", Val.str "Empresas: % del PIB"),
    ("Total", Val.num 2)]]

/-- Witness for C5 at a concrete table mixing an absolute-value row and a
percentage row. -/
theorem separar_exactly_nonpct_witness :
    (separar_valores_porcentajes dfC5).Sublist dfC5 ∧
    ∀ r : Row, r ∈ separar_valores_porcentajes dfC5 ↔
      r ∈ dfC5 ∧ containsPct (getCell r "Sectores/unidad") = false :=
  separar_exactly_nonpct dfC5
